import Mathlib

/-
Verification of the TerraMine grid / accrual / boost core.

Shallow embedding of the TypeScript sources:
  - GridUtils.ts (grid addressing, visible-cell enumeration, containment),
  - screens/MapScreen.tsx (boost grant handlers, free-quota reset tick,
    check-in submission),
  - services/DatabaseService.ts (offline earnings accrual, earnings flush,
    property purchase, check-in persistence).

JavaScript numbers are modelled as rationals (ℚ); timestamps are epoch
milliseconds as in Date.getTime(). Cell identity is the pair of signed
integers (gridX, gridY); the source serializes it as the string
"gridX_gridY", an injective encoding, so the pair is used directly.
-/

namespace TerraMine

/-- GRID_SIZE = 0.0001 degrees (GridUtils.ts). -/
def GRID_SIZE : ℚ := 1 / 10000

/-- MAX_GRID_SQUARES = 500 (GridUtils.ts). -/
def MAX_GRID_SQUARES : ℕ := 500

/-- Mine category, assigned at purchase (60/30/9/1 weights in the source). -/
inductive MineType
  | rock
  | coal
  | gold
  | diamond
deriving Repr, DecidableEq

/-- A corner coordinate (GridUtils.ts LatLng). -/
structure LatLng where
  latitude : ℚ
  longitude : ℚ
deriving Repr, DecidableEq

/-- GridUtils.ts GridSquare. -/
structure GridSquare where
  id : ℤ × ℤ
  centerLat : ℚ
  centerLng : ℚ
  corners : List LatLng
  mineType : MineType
  isOwned : Bool
  ownerId : Option String
deriving Repr, DecidableEq

/-- GridUtils.ts latLngToGridId: floor(lat / GRID_SIZE), floor(lng / GRID_SIZE).
The source returns the string "x_y"; the pair is its decoded form. -/
def latLngToGridId (latitude longitude : ℚ) : ℤ × ℤ :=
  (⌊latitude / GRID_SIZE⌋, ⌊longitude / GRID_SIZE⌋)

/-- GridUtils.ts gridToLatLng: center of the square. -/
def gridToLatLng (gridX gridY : ℤ) : LatLng :=
  ⟨(gridX + (1 : ℚ) / 2) * GRID_SIZE, (gridY + (1 : ℚ) / 2) * GRID_SIZE⟩

/-- GridUtils.ts generateGridSquare. The non-finite-input throw of the source
cannot fire on rationals, which are always finite. -/
def generateGridSquare (latitude longitude : ℚ) : GridSquare :=
  let id := latLngToGridId latitude longitude
  let x := id.1
  let y := id.2
  { id := id
    centerLat := (x + (1 : ℚ) / 2) * GRID_SIZE
    centerLng := (y + (1 : ℚ) / 2) * GRID_SIZE
    corners :=
      [⟨x * GRID_SIZE, y * GRID_SIZE⟩,
       ⟨(x + 1) * GRID_SIZE, y * GRID_SIZE⟩,
       ⟨(x + 1) * GRID_SIZE, (y + 1) * GRID_SIZE⟩,
       ⟨x * GRID_SIZE, (y + 1) * GRID_SIZE⟩]
    mineType := .rock
    isOwned := false
    ownerId := none }

/-- GridUtils.ts isWithinGridSquare: compare grid ids. -/
def isWithinGridSquare (lat lng : ℚ) (square : GridSquare) : Bool :=
  decide (latLngToGridId lat lng = square.id)

/-- Result of getVisibleGridSquares: the source logs an error and returns an
empty array on invalid input; invalidInput records that reported error. -/
structure VisibleResult where
  invalidInput : Bool
  ids : List (ℤ × ℤ)
deriving Repr, DecidableEq

/-- The double loop of getVisibleGridSquares: x from cx-range to cx+range,
y from cy-range to cy+range (empty when range < 0). -/
def gridRangeIds (cx cy range : ℤ) : List (ℤ × ℤ) :=
  (List.range (2 * range + 1).toNat).flatMap fun (i : ℕ) =>
    (List.range (2 * range + 1).toNat).map fun (j : ℕ) =>
      (cx - range + (i : ℤ), cy - range + (j : ℤ))

/-- GridUtils.ts getVisibleGridSquares. The reduced range is
Math.floor(Math.sqrt(MAX_GRID_SQUARES) / 2); since
⌊√500 / 2⌋ = ⌊⌊√500⌋ / 2⌋, it equals Nat.sqrt 500 / 2 = 11.
The isFinite guard of the source cannot fire on rationals. -/
def getVisibleGridSquares (centerLat centerLng radiusInMeters : ℚ) : VisibleResult :=
  if 90 < |centerLat| ∨ 180 < |centerLng| then
    ⟨true, []⟩
  else
    let effectiveRadius := min radiusInMeters 150
    let gridSquaresInRadius : ℤ := ⌈effectiveRadius / 10⌉
    let c := latLngToGridId centerLat centerLng
    let range := gridSquaresInRadius
    let totalSquares := (2 * range + 1) * (2 * range + 1)
    if (MAX_GRID_SQUARES : ℤ) < totalSquares then
      let reducedRange : ℤ := (Nat.sqrt MAX_GRID_SQUARES / 2 : ℕ)
      ⟨false, gridRangeIds c.1 c.2 reducedRange⟩
    else
      ⟨false, gridRangeIds c.1 c.2 range⟩

/-! Boost state machine (screens/MapScreen.tsx). Timestamps are epoch ms. -/

/-- The persisted boost fields of a user (MapScreen boostState /
initialBoostState). freeBoostsRemaining and adBoostsUsed are the 0..4 and
0..12 counters of the source. -/
structure BoostState where
  freeBoostsRemaining : ℕ
  adBoostsUsed : ℕ
  boostExpiresAt : Option ℚ
  nextFreeBoostResetAt : Option ℚ
deriving Repr, DecidableEq

/-- MAX_BOOST_MINUTES = 480 (handleFreeBoost / handleAdBoost). -/
def MAX_BOOST_MINUTES : ℚ := 480

/-- MAX_AD_BOOSTS = 12 (handleAdBoost). -/
def MAX_AD_BOOSTS : ℕ := 12

/-- 30 minutes in ms, the per-grant increment. -/
def BOOST_INCREMENT_MS : ℚ := 30 * 60 * 1000

/-- 6 hours in ms, the free-quota replenish cooldown. -/
def FREE_RESET_MS : ℚ := 6 * 60 * 60 * 1000

/-- boostTimeRemaining in minutes, as maintained by updateBoostTimer:
max(0, (expiresAt - now) / 60000), and 0 when no expiry is set. -/
def boostTimeRemaining (s : BoostState) (now : ℚ) : ℚ :=
  match s.boostExpiresAt with
  | none => 0
  | some e => max 0 ((e - now) / 60000)

/-- The user-visible failures of the boost grant handlers. -/
inductive BoostError
  | noFreeBoosts
  | maxBoostReached
  | noAdBoosts
deriving Repr, DecidableEq

/-- MapScreen.tsx handleFreeBoost. Checks the free quota, then the
480-minute precondition; on success adds 30 minutes to the current expiry
(or to now when none), decrements the quota, and starts the 6-hour
replenish timer when the quota hits zero with no timer already running. -/
def handleFreeBoost (s : BoostState) (now : ℚ) : Except BoostError BoostState :=
  if s.freeBoostsRemaining = 0 then
    .error .noFreeBoosts
  else if MAX_BOOST_MINUTES ≤ boostTimeRemaining s now then
    .error .maxBoostReached
  else
    let newExpiresAt :=
      match s.boostExpiresAt with
      | some e => e + BOOST_INCREMENT_MS
      | none => now + BOOST_INCREMENT_MS
    let newFreeBoosts := s.freeBoostsRemaining - 1
    let resetAt :=
      if newFreeBoosts = 0 ∧ s.nextFreeBoostResetAt = none then
        some (now + FREE_RESET_MS)
      else
        s.nextFreeBoostResetAt
    .ok { s with
          freeBoostsRemaining := newFreeBoosts
          boostExpiresAt := some newExpiresAt
          nextFreeBoostResetAt := resetAt }

/-- MapScreen.tsx handleAdBoost: same expiry arithmetic, capped count of
ad grants, replenish timer untouched. -/
def handleAdBoost (s : BoostState) (now : ℚ) : Except BoostError BoostState :=
  if MAX_AD_BOOSTS ≤ s.adBoostsUsed then
    .error .noAdBoosts
  else if MAX_BOOST_MINUTES ≤ boostTimeRemaining s now then
    .error .maxBoostReached
  else
    let newExpiresAt :=
      match s.boostExpiresAt with
      | some e => e + BOOST_INCREMENT_MS
      | none => now + BOOST_INCREMENT_MS
    .ok { s with
          adBoostsUsed := s.adBoostsUsed + 1
          boostExpiresAt := some newExpiresAt }

/-- MapScreen.tsx checkResetTimer (the periodic quota-reset tick): when a
replenish timestamp is set and due, reset the free quota to 4 and clear the
timestamp; the boost expiry is untouched. -/
def checkResetTimer (s : BoostState) (now : ℚ) : BoostState :=
  match s.nextFreeBoostResetAt with
  | none => s
  | some resetAt =>
    if resetAt ≤ now then
      { s with freeBoostsRemaining := 4, nextFreeBoostResetAt := none }
    else
      s

/-! Accrual engine (services/DatabaseService.ts calculateOfflineEarnings). -/

/-- The per-second rent rates (DatabaseService.ts rentRates). -/
def rentRates : MineType → ℚ
  | .rock => 11 / 10000000000
  | .coal => 16 / 10000000000
  | .gold => 22 / 10000000000
  | .diamond => 44 / 10000000000

/-- The summation loop over owned properties: the computation reads only
each property's mineType, so properties are represented by that field. -/
def baseRatePerSecond (properties : List MineType) : ℚ :=
  properties.foldl (fun acc p => acc + rentRates p) 0

/-- Return value of calculateOfflineEarnings. -/
structure EarningsResult where
  totalEarnings : ℚ
  previousEarnings : ℚ
  newEarnings : ℚ
  secondsElapsed : ℚ
  boostedSeconds : ℚ
deriving Repr, DecidableEq

/-- DatabaseService.ts calculateOfflineEarnings, as a pure function of the
user's stored fields (usdEarnings, lastEarningsUpdate, boostEndTime), the
owned properties and the clock. -/
def calculateOfflineEarnings (usdEarnings lastEarningsUpdate : ℚ)
    (boostEndTime : Option ℚ) (properties : List MineType) (now : ℚ) :
    EarningsResult :=
  let rate := baseRatePerSecond properties
  let secondsElapsed := (now - lastEarningsUpdate) / 1000
  let boostedSeconds :=
    match boostEndTime with
    | none => 0
    | some be =>
      if lastEarningsUpdate < be then
        let boostEnd := if now < be then now else be
        (boostEnd - lastEarningsUpdate) / 1000
      else
        0
  let normalSeconds := secondsElapsed - boostedSeconds
  let normalEarnings := rate * normalSeconds
  let boostedEarnings := rate * 2 * boostedSeconds
  let newEarnings := normalEarnings + boostedEarnings
  { totalEarnings := usdEarnings + newEarnings
    previousEarnings := usdEarnings
    newEarnings := newEarnings
    secondsElapsed := secondsElapsed
    boostedSeconds := boostedSeconds }

/-! Persistent store state and the operations on it. -/

/-- A user document (users collection). -/
structure UserRecord where
  tbBalance : ℤ
  totalCheckIns : ℤ
  usdEarnings : ℚ
  lastEarningsUpdate : ℚ
  boost : BoostState
deriving Repr, DecidableEq

/-- A property document (properties collection). -/
structure PropertyRecord where
  id : ℤ × ℤ
  ownerId : String
  mineType : MineType
  purchasedAt : ℚ
deriving Repr, DecidableEq

/-- A check-in document (checkIns collection, DatabaseService.ts
createCheckIn): the message field is only present when the argument is a
non-empty string after trimming. -/
structure CheckInRecord where
  userId : String
  propertyId : ℤ × ℤ
  propertyOwnerId : String
  message : Option String
  hasPhoto : Bool
  timestamp : ℚ
deriving Repr, DecidableEq

/-- The Firestore state touched by the core operations. -/
structure DB where
  properties : List PropertyRecord
  checkIns : List CheckInRecord
  users : String → UserRecord

/-- DatabaseService.ts updateUserBalance: tbBalance += amount. -/
def updateUserBalance (db : DB) (userId : String) (amount : ℤ) : DB :=
  { db with
    users := fun u =>
      if u = userId then
        { db.users u with tbBalance := (db.users u).tbBalance + amount }
      else
        db.users u }

/-- DatabaseService.ts updateUserEarnings: write the absolute usdEarnings
total and set lastEarningsUpdate to now. -/
def updateUserEarnings (db : DB) (userId : String) (earnings now : ℚ) : DB :=
  { db with
    users := fun u =>
      if u = userId then
        { db.users u with usdEarnings := earnings, lastEarningsUpdate := now }
      else
        db.users u }

/-- Mine types of the properties owned by a user
(getPropertiesByOwner, projected to the field the accrual reads). -/
def ownedMineTypes (db : DB) (userId : String) : List MineType :=
  (db.properties.filter fun p => p.ownerId = userId).map fun p => p.mineType

/-- The earnings flush: calculateOfflineEarnings followed by
updateUserEarnings with the returned absolute total (the sequence run by
the callers of the two functions). -/
def flushEarnings (db : DB) (userId : String) (now : ℚ) : DB :=
  updateUserEarnings db userId
    (calculateOfflineEarnings (db.users userId).usdEarnings
      (db.users userId).lastEarningsUpdate
      (db.users userId).boost.boostExpiresAt (ownedMineTypes db userId)
      now).totalEarnings
    now

/-- The purchase failure surfaced by DatabaseService.ts purchaseProperty. -/
inductive PurchaseError
  | alreadyOwned
deriving Repr, DecidableEq

/-- DatabaseService.ts purchaseProperty: read the property document; if it
exists, throw before performing any write (the returned state is the input
state); else flush earnings, create the property record, debit the cost. -/
def purchaseProperty (db : DB) (userId : String) (property : GridSquare)
    (tbCost : ℤ) (now : ℚ) : DB × Option PurchaseError :=
  if db.properties.any fun q => q.id = property.id then
    (db, some .alreadyOwned)
  else
    let db1 := flushEarnings db userId now
    let db2 := { db1 with
                 properties :=
                   db1.properties ++
                     [⟨property.id, userId, property.mineType, now⟩] }
    let db3 := updateUserBalance db2 userId (-tbCost)
    (db3, none)

/-- DatabaseService.ts createCheckIn: store the check-in document (message
only when non-empty after trimming), increment the visitor's totalCheckIns,
and credit the property owner 1 TB. -/
def createCheckIn (db : DB) (userId : String) (propertyId : ℤ × ℤ)
    (propertyOwnerId : String) (message : Option String) (hasPhoto : Bool)
    (now : ℚ) : DB :=
  let storedMessage :=
    match message with
    | some m => if m.trim ≠ "" then some m.trim else none
    | none => none
  let rec1 : CheckInRecord :=
    ⟨userId, propertyId, propertyOwnerId, storedMessage, hasPhoto, now⟩
  let db1 := { db with checkIns := rec1 :: db.checkIns }
  let db2 := { db1 with
               users := fun u =>
                 if u = userId then
                   { db1.users u with
                     totalCheckIns := (db1.users u).totalCheckIns + 1 }
                 else
                   db1.users u }
  updateUserBalance db2 propertyOwnerId 1

/-- MapScreen.tsx submitCheckIn composed with MainNavigator.tsx
handleCheckIn: compute the TB reward (1, +2 for a message non-empty after
trimming, +2 for a photo), persist the check-in (crediting the owner 1 TB),
then credit the visitor the reward. -/
def submitCheckIn (db : DB) (userId : String) (propertyId : ℤ × ℤ)
    (propertyOwnerId : String) (checkInMessage : String) (hasPhoto : Bool)
    (now : ℚ) : DB :=
  let tbEarned : ℤ :=
    1 + (if checkInMessage.trim ≠ "" then 2 else 0) + (if hasPhoto then 2 else 0)
  let messageArg :=
    if checkInMessage.trim = "" then none else some checkInMessage.trim
  let db1 := createCheckIn db userId propertyId propertyOwnerId messageArg
    hasPhoto now
  updateUserBalance db1 userId tbEarned

/-! Theorems. -/

/-- The double loop produces (2r+1)² cell ids (0 when the range is
negative). -/
theorem length_gridRangeIds (cx cy r : ℤ) :
    (gridRangeIds cx cy r).length = (2 * r + 1).toNat * (2 * r + 1).toNat := by
  simp only [gridRangeIds, List.length_flatMap, Function.comp_def, List.length_map,
    List.length_range, List.map_const', List.sum_replicate, smul_eq_mul]

/-- C7: for coordinates in range, pointToCellId is deterministic — two
points map to the same cell id iff floor(lat/GRID_SIZE) and
floor(lon/GRID_SIZE) both match — and a point always lies inside the cell
built from it: isWithinGridSquare(lat, lon, generateGridSquare(lat, lon))
is true. -/
theorem latLngToGridId_deterministic_and_inside (lat1 lon1 lat2 lon2 : ℚ)
    (h1 : |lat1| ≤ 90) (h2 : |lon1| ≤ 180) (h3 : |lat2| ≤ 90)
    (h4 : |lon2| ≤ 180) :
    (latLngToGridId lat1 lon1 = latLngToGridId lat2 lon2 ↔
      ⌊lat1 / GRID_SIZE⌋ = ⌊lat2 / GRID_SIZE⌋ ∧
        ⌊lon1 / GRID_SIZE⌋ = ⌊lon2 / GRID_SIZE⌋) ∧
    isWithinGridSquare lat1 lon1 (generateGridSquare lat1 lon1) = true := by
  constructor
  · simp [latLngToGridId, Prod.ext_iff]
  · simp [isWithinGridSquare, generateGridSquare]

/-- C7 witness: two distinct in-range points of one cell share its id, and
the point lies inside its own generated cell. -/
theorem latLngToGridId_deterministic_and_inside_witness :
    |(42 : ℚ)| ≤ 90 ∧ |(-71 : ℚ)| ≤ 180 ∧ |(42 + 1 / 20000 : ℚ)| ≤ 90 ∧
    ((latLngToGridId 42 (-71) = latLngToGridId (42 + 1 / 20000) (-71) ↔
        ⌊(42 : ℚ) / GRID_SIZE⌋ = ⌊(42 + 1 / 20000 : ℚ) / GRID_SIZE⌋ ∧
          ⌊(-71 : ℚ) / GRID_SIZE⌋ = ⌊(-71 : ℚ) / GRID_SIZE⌋) ∧
      isWithinGridSquare 42 (-71) (generateGridSquare 42 (-71)) = true) :=
  ⟨by norm_num [abs_le], by norm_num [abs_le], by norm_num [abs_le],
    latLngToGridId_deterministic_and_inside 42 (-71) (42 + 1 / 20000) (-71)
      (by norm_num [abs_le]) (by norm_num [abs_le]) (by norm_num [abs_le])
      (by norm_num [abs_le])⟩

/-- C8: out-of-range coordinates make the visible-cell enumeration report
the error condition and return the empty list, for every radius; the
non-finite branch of the source cannot fire on rationals, which are always
finite. -/
theorem getVisibleGridSquares_invalid (centerLat centerLng radiusInMeters : ℚ)
    (h : 90 < |centerLat| ∨ 180 < |centerLng|) :
    getVisibleGridSquares centerLat centerLng radiusInMeters = ⟨true, []⟩ := by
  unfold getVisibleGridSquares
  rw [if_pos h]

/-- C8 witness: lat = 91 is rejected. -/
theorem getVisibleGridSquares_invalid_witness :
    (90 < |(91 : ℚ)| ∨ 180 < |(0 : ℚ)|) ∧
    getVisibleGridSquares 91 0 37 = ⟨true, []⟩ :=
  ⟨by norm_num, getVisibleGridSquares_invalid 91 0 37 (by norm_num)⟩

/-- C3 (the cap is overrun): at the in-app request (radius 500 m, clamped
to 150 m) the reduced range ⌊√500 / 2⌋ = 11 yields a 23 × 23 square of
529 cell ids, exceeding MAX_GRID_SQUARES = 500, contrary to the source's
own "reduce the range to fit within MAX_GRID_SQUARES" comment. -/
theorem getVisibleGridSquares_cap_overrun :
    (getVisibleGridSquares 0 0 150).invalidInput = false ∧
    (getVisibleGridSquares 0 0 150).ids.length = 529 ∧
    MAX_GRID_SQUARES < 529 := by
  refine ⟨?_, ?_, by norm_num [MAX_GRID_SQUARES]⟩ <;>
    norm_num [getVisibleGridSquares, latLngToGridId, GRID_SIZE,
      MAX_GRID_SQUARES, length_gridRangeIds] <;>
    decide

/-- C1 (the ceiling is not clamped to): with 475 minutes of boost
outstanding (expiry 28500000 ms, clock 0) and one free grant left, the
grant succeeds and adds the full 30 minutes: the new expiry is
currentExpiry + 30 min, leaving 505 outstanding minutes, above the
480-minute ceiling; the claimed min(ceiling, ...) clamp would leave 480. -/
theorem handleFreeBoost_overshoots_ceiling :
    boostTimeRemaining ⟨1, 0, some 28500000, none⟩ 0 = 475 ∧
    handleFreeBoost ⟨1, 0, some 28500000, none⟩ 0 =
      .ok ⟨0, 0, some 30300000, some 21600000⟩ ∧
    boostTimeRemaining ⟨0, 0, some 30300000, some 21600000⟩ 0 = 505 ∧
    MAX_BOOST_MINUTES < 505 := by
  refine ⟨?_, ?_, ?_, by norm_num [MAX_BOOST_MINUTES]⟩ <;>
    norm_num [handleFreeBoost, boostTimeRemaining, MAX_BOOST_MINUTES,
      BOOST_INCREMENT_MS, FREE_RESET_MS, max_def]

/-- C5: a free grant fails with the no-free-boosts error exactly when the
free quota is zero; from a fresh state four consecutive grants succeed
(ending with 120 outstanding boosted minutes) and the fifth fails; a grant
from one remaining free boost and no active boost leaves zero free boosts,
expiry now + 30 min and replenish timestamp now + 6 h. -/
theorem handleFreeBoost_quota (now : ℚ) (s : BoostState) (ad : ℕ) :
    ((handleFreeBoost s now = .error .noFreeBoosts) ↔
      s.freeBoostsRemaining = 0) ∧
    handleFreeBoost ⟨4, ad, none, none⟩ now =
      .ok ⟨3, ad, some (now + 1800000), none⟩ ∧
    handleFreeBoost ⟨3, ad, some (now + 1800000), none⟩ now =
      .ok ⟨2, ad, some (now + 3600000), none⟩ ∧
    handleFreeBoost ⟨2, ad, some (now + 3600000), none⟩ now =
      .ok ⟨1, ad, some (now + 5400000), none⟩ ∧
    handleFreeBoost ⟨1, ad, some (now + 5400000), none⟩ now =
      .ok ⟨0, ad, some (now + 7200000), some (now + 21600000)⟩ ∧
    handleFreeBoost ⟨0, ad, some (now + 7200000), some (now + 21600000)⟩ now
      = .error .noFreeBoosts ∧
    boostTimeRemaining ⟨0, ad, some (now + 7200000), some (now + 21600000)⟩
      now = 120 ∧
    handleFreeBoost ⟨1, ad, none, none⟩ now =
      .ok ⟨0, ad, some (now + 1800000), some (now + 21600000)⟩ := by
  refine ⟨?_, ?_, ?_, ?_, ?_, ?_, ?_, ?_⟩
  · constructor
    · intro h
      by_contra hne
      unfold handleFreeBoost at h
      rw [if_neg hne] at h
      by_cases hb : MAX_BOOST_MINUTES ≤ boostTimeRemaining s now
      · rw [if_pos hb] at h
        exact absurd h (by simp)
      · rw [if_neg hb] at h
        exact absurd h (by simp)
    · intro h
      unfold handleFreeBoost
      rw [if_pos h]
  all_goals
    simp only [handleFreeBoost, boostTimeRemaining, MAX_BOOST_MINUTES,
      BOOST_INCREMENT_MS, FREE_RESET_MS, add_sub_cancel_left, max_def]
  all_goals norm_num
  all_goals ring_nf

/-- C5 witness: the quota criterion instantiated at the exhausted state at
clock 0. -/
theorem handleFreeBoost_quota_witness :
    handleFreeBoost ⟨0, 0, none, none⟩ 0 = .error .noFreeBoosts :=
  ((handleFreeBoost_quota 0 ⟨0, 0, none, none⟩ 0).1).mpr rfl

/-- C6: the quota-reset tick resets the free quota to 4 and clears the
replenish timestamp exactly when the timestamp is present and due,
regardless of the boost expiry, which it never touches; and the grant that
exhausts the quota starts the 6-hour cooldown at that moment. -/
theorem checkResetTimer_replenish (s : BoostState) (now : ℚ) :
    (∀ r : ℚ, s.nextFreeBoostResetAt = some r → r ≤ now →
      checkResetTimer s now =
        { s with freeBoostsRemaining := 4, nextFreeBoostResetAt := none }) ∧
    (∀ r : ℚ, s.nextFreeBoostResetAt = some r → now < r →
      checkResetTimer s now = s) ∧
    (s.nextFreeBoostResetAt = none → checkResetTimer s now = s) ∧
    (checkResetTimer s now).boostExpiresAt = s.boostExpiresAt ∧
    (s.freeBoostsRemaining = 1 → s.nextFreeBoostResetAt = none →
      ∀ s' : BoostState, handleFreeBoost s now = .ok s' →
        s'.nextFreeBoostResetAt = some (now + 21600000)) := by
  refine ⟨?_, ?_, ?_, ?_, ?_⟩
  · intro r hr hle
    unfold checkResetTimer
    rw [hr]
    simp [hle]
  · intro r hr hlt
    unfold checkResetTimer
    rw [hr]
    simp [not_le.mpr hlt]
  · intro hnone
    unfold checkResetTimer
    rw [hnone]
  · unfold checkResetTimer
    rcases hr : s.nextFreeBoostResetAt with _ | r
    · rfl
    · by_cases hle : r ≤ now
      · simp [hle]
      · simp [hle]
  · intro h1 hnone s' hok
    unfold handleFreeBoost at hok
    rw [if_neg (by rw [h1]; exact one_ne_zero)] at hok
    by_cases hb : MAX_BOOST_MINUTES ≤ boostTimeRemaining s now
    · rw [if_pos hb] at hok
      exact absurd hok (by simp)
    · rw [if_neg hb] at hok
      simp only [Except.ok.injEq] at hok
      rw [← hok]
      simp [h1, hnone, FREE_RESET_MS]
      norm_num

/-- C6 witness: a due replenish timestamp resets the quota at clock 10 and
leaves the expiry untouched; an overdue timestamp later than the clock does
nothing. -/
theorem checkResetTimer_replenish_witness :
    checkResetTimer ⟨0, 2, some 999, some 5⟩ 10 = ⟨4, 2, some 999, none⟩ ∧
    checkResetTimer ⟨0, 2, some 999, some 15⟩ 10 = ⟨0, 2, some 999, some 15⟩ :=
  ⟨(checkResetTimer_replenish ⟨0, 2, some 999, some 5⟩ 10).1 5 rfl
      (by norm_num),
    (checkResetTimer_replenish ⟨0, 2, some 999, some 15⟩ 10).2.1 15 rfl
      (by norm_num)⟩

/-- C2: accruedSince splits the elapsed interval at the boost end:
the result is normalSeconds × rate + boostedSeconds × rate × 2, where
boostedSeconds is the overlap of [lastSnapshot, min(now, boostEnd)] with
the elapsed interval clamped to ≥ 0; with no boost window it is
elapsedSeconds × rate, and with the elapsed interval entirely inside the
boost window it is elapsedSeconds × rate × 2. -/
theorem calculateOfflineEarnings_split (properties : List MineType)
    (usd last now : ℚ) (h : last ≤ now) :
    (∀ be : ℚ,
      (calculateOfflineEarnings usd last (some be) properties
          now).newEarnings =
        baseRatePerSecond properties *
            ((now - last) / 1000 - max 0 ((min now be - last) / 1000)) +
          baseRatePerSecond properties * 2 *
            max 0 ((min now be - last) / 1000)) ∧
    (calculateOfflineEarnings usd last none properties now).newEarnings =
      baseRatePerSecond properties * ((now - last) / 1000) ∧
    (∀ be : ℚ, now ≤ be →
      (calculateOfflineEarnings usd last (some be) properties
          now).newEarnings =
        baseRatePerSecond properties * ((now - last) / 1000) * 2) := by
  refine ⟨?_, ?_, ?_⟩
  · intro be
    unfold calculateOfflineEarnings
    by_cases hlb : last < be
    · by_cases hnb : now < be
      · have hmax : max 0 ((min now be - last) / 1000) = (now - last) / 1000 := by
          rw [min_eq_left hnb.le]
          exact max_eq_right (div_nonneg (sub_nonneg.mpr h) (by norm_num))
        simp only [hlb, if_true, hnb, if_pos]
        try rw [hmax]
        try ring
      · have hben : be ≤ now := le_of_not_lt hnb
        have hmax : max 0 ((min now be - last) / 1000) = (be - last) / 1000 := by
          rw [min_eq_right hben]
          exact max_eq_right (div_nonneg (sub_nonneg.mpr hlb.le) (by norm_num))
        simp only [hlb, if_true, hnb, if_false]
        try rw [hmax]
        try ring
    · have hble : be ≤ last := le_of_not_lt hlb
      have hmax : max 0 ((min now be - last) / 1000) = 0 := by
        rw [min_eq_right (hble.trans h)]
        refine max_eq_left ?_
        rw [div_nonpos_iff]
        exact Or.inr ⟨sub_nonpos.mpr hble, by norm_num⟩
      simp only [hlb, if_false]
      try rw [hmax]
      try ring
  · unfold calculateOfflineEarnings
    try simp only []
    try ring
  · intro be hbe
    unfold calculateOfflineEarnings
    by_cases hlb : last < be
    · by_cases hnb : now < be
      · simp only [hlb, if_true, hnb, if_pos]
        try ring
      · have hben : be = now := le_antisymm (le_of_not_lt hnb) hbe
        rw [hben] at hlb
        simp only [hben, hlb, if_true, lt_self_iff_false, if_false, ite_self]
        try ring
    · have hnl : now = last := le_antisymm ((hbe.trans (le_of_not_lt hlb))) h
      simp only [hlb, if_false, hnl, sub_self]
      try ring

/-- C2 witness: one rock cell, snapshot 3600 s old, the three parts
instantiated. -/
theorem calculateOfflineEarnings_split_witness :
    (0 : ℚ) ≤ 3600000 ∧
    ((∀ be : ℚ,
      (calculateOfflineEarnings 0 0 (some be) [MineType.rock]
          3600000).newEarnings =
        baseRatePerSecond [MineType.rock] *
            ((3600000 - 0) / 1000 - max 0 ((min 3600000 be - 0) / 1000)) +
          baseRatePerSecond [MineType.rock] * 2 *
            max 0 ((min 3600000 be - 0) / 1000)) ∧
    (calculateOfflineEarnings 0 0 none [MineType.rock] 3600000).newEarnings =
      baseRatePerSecond [MineType.rock] * ((3600000 - 0) / 1000) ∧
    (∀ be : ℚ, (3600000 : ℚ) ≤ be →
      (calculateOfflineEarnings 0 0 (some be) [MineType.rock]
          3600000).newEarnings =
        baseRatePerSecond [MineType.rock] * ((3600000 - 0) / 1000) * 2)) :=
  ⟨by norm_num,
    calculateOfflineEarnings_split [MineType.rock] 0 0 3600000 (by norm_num)⟩

/-- Flushing with no elapsed time accrues nothing: the absolute total
written back equals the stored total. -/
theorem calculateOfflineEarnings_zero_elapsed (usd : ℚ) (be : Option ℚ)
    (properties : List MineType) (now : ℚ) :
    (calculateOfflineEarnings usd now be properties now).totalEarnings =
      usd := by
  unfold calculateOfflineEarnings
  rcases be with _ | b
  · simp
  · by_cases hb : now < b
    · simp [hb]
    · simp [hb]

/-- C4: the earnings flush writes an absolute total together with the new
snapshot timestamp, so flushing twice at the same instant changes nothing
the second time. -/
theorem flushEarnings_idempotent (db : DB) (userId : String) (now : ℚ) :
    flushEarnings (flushEarnings db userId now) userId now =
      flushEarnings db userId now := by
  have hself : ∀ (d : DB) (e t : ℚ),
      (d.users userId).usdEarnings = e →
      (d.users userId).lastEarningsUpdate = t →
      updateUserEarnings d userId e t = d := by
    intro d e t he ht
    unfold updateUserEarnings
    have hfun : (fun u =>
        if u = userId then
          { d.users u with usdEarnings := e, lastEarningsUpdate := t }
        else
          d.users u) = d.users := by
      funext u
      by_cases hu : u = userId
      · subst hu
        rw [if_pos rfl, ← he, ← ht]
      · rw [if_neg hu]
    rw [hfun]
  set db1 := flushEarnings db userId now with hdb1
  have hlast : (db1.users userId).lastEarningsUpdate = now := by
    rw [hdb1]
    simp [flushEarnings, updateUserEarnings]
  unfold flushEarnings
  rw [hlast, calculateOfflineEarnings_zero_elapsed]
  exact hself db1 _ _ rfl hlast

/-- C9: purchasing an already-owned cell throws before any write: the
returned state is the input state — no property record is created or
modified and the buyer's TB balance is not debited. -/
theorem purchaseProperty_already_owned (db : DB) (userId : String)
    (property : GridSquare) (tbCost : ℤ) (now : ℚ)
    (h : ∃ q ∈ db.properties, q.id = property.id) :
    purchaseProperty db userId property tbCost now =
      (db, some .alreadyOwned) := by
  unfold purchaseProperty
  have hb : (db.properties.any fun q => decide (q.id = property.id)) = true := by
    rw [List.any_eq_true]
    obtain ⟨q, hq, he⟩ := h
    exact ⟨q, hq, by simp [he]⟩
  simp only [hb, if_true]

/-- Records for concrete store states used by the witnesses. -/
def sampleUser : UserRecord := ⟨1000, 0, 0, 0, ⟨4, 0, none, none⟩⟩

def sampleProperty : PropertyRecord := ⟨(420000, -710000), ("alice"), .rock, 0⟩

def sampleDB : DB := ⟨[sampleProperty], [], fun _ => sampleUser⟩

def sampleSquare : GridSquare :=
  ⟨(420000, -710000), 0, 0, [], .rock, false, none⟩

/-- C9 witness: a second buyer hits the existing record and the store is
returned unchanged. -/
theorem purchaseProperty_already_owned_witness :
    (∃ q ∈ sampleDB.properties, q.id = sampleSquare.id) ∧
    purchaseProperty sampleDB ("bob") sampleSquare 100 0 =
      (sampleDB, some .alreadyOwned) :=
  ⟨⟨sampleProperty, by simp [sampleDB], rfl⟩,
    purchaseProperty_already_owned sampleDB ("bob") sampleSquare 100 0
      ⟨sampleProperty, by simp [sampleDB], rfl⟩⟩

/-- C10: a successful check-in credits the visitor 1 TB, plus 2 when the
attached message (the trimmed input) is non-empty and plus 2 when a photo
is attached — between 1 and 5 TB in total — records the check-in, and
credits the property owner exactly 1 TB. -/
theorem submitCheckIn_credits (db : DB) (userId : String)
    (propertyId : ℤ × ℤ) (propertyOwnerId : String)
    (checkInMessage : String) (hasPhoto : Bool) (now : ℚ)
    (hvo : userId ≠ propertyOwnerId) :
    ((submitCheckIn db userId propertyId propertyOwnerId checkInMessage
          hasPhoto now).users userId).tbBalance =
      (db.users userId).tbBalance +
        (1 + (if checkInMessage.trim ≠ "" then 2 else 0) +
          (if hasPhoto then 2 else 0)) ∧
    (1 : ℤ) ≤
      1 + (if checkInMessage.trim ≠ "" then 2 else 0) +
        (if hasPhoto then 2 else 0) ∧
    1 + (if checkInMessage.trim ≠ "" then (2 : ℤ) else 0) +
        (if hasPhoto then 2 else 0) ≤ 5 ∧
    ((submitCheckIn db userId propertyId propertyOwnerId checkInMessage
          hasPhoto now).users propertyOwnerId).tbBalance =
      (db.users propertyOwnerId).tbBalance + 1 ∧
    (submitCheckIn db userId propertyId propertyOwnerId checkInMessage
        hasPhoto now).checkIns.length = db.checkIns.length + 1 := by
  refine ⟨?_, ?_, ?_, ?_, ?_⟩
  · simp [submitCheckIn, createCheckIn, updateUserBalance, hvo]
  · split_ifs <;> norm_num
  · split_ifs <;> norm_num
  · simp [submitCheckIn, createCheckIn, updateUserBalance, hvo, Ne.symm hvo]
  · simp [submitCheckIn, createCheckIn, updateUserBalance]

/-- C10 witness: a visitor distinct from the owner checks in with a
message and no photo. -/
theorem submitCheckIn_credits_witness :
    ("visitor" : String) ≠ ("owner" : String) ∧
    (((submitCheckIn sampleDB ("visitor") (420000, -710000) ("owner")
          ("hi") false 0).users ("visitor")).tbBalance =
      (sampleDB.users ("visitor")).tbBalance +
        (1 + (if ("hi" : String).trim ≠ "" then 2 else 0) +
          (if false then 2 else 0)) ∧
    (1 : ℤ) ≤
      1 + (if ("hi" : String).trim ≠ "" then 2 else 0) +
        (if false then 2 else 0) ∧
    1 + (if ("hi" : String).trim ≠ "" then (2 : ℤ) else 0) +
        (if false then 2 else 0) ≤ 5 ∧
    ((submitCheckIn sampleDB ("visitor") (420000, -710000) ("owner")
          ("hi") false 0).users ("owner")).tbBalance =
      (sampleDB.users ("owner")).tbBalance + 1 ∧
    (submitCheckIn sampleDB ("visitor") (420000, -710000) ("owner")
        ("hi") false 0).checkIns.length = sampleDB.checkIns.length + 1) :=
  ⟨by decide,
    submitCheckIn_credits sampleDB ("visitor") (420000, -710000) ("owner")
      ("hi") false 0 (by decide)⟩

end TerraMine
